import Mathlib

/-!
Verification of the agent-conversation orchestrator of
`tabs/tab_agent_convo.py` (class `AgentConversationTab`).

The Python code is shallowly embedded: the remote generation client
(`call_gemini_api`) becomes a total function over an explicit sequence of
per-attempt outcomes; the conversation loop
(`joint_conversation_with_selected_agents`) becomes a step function on an
explicit state record, with the nondeterministic environment (the string
returned by each client invocation, the database's behaviour) passed in as
parameters; the rating ledger (`rate_agent_response`) becomes a pure map
update returning both the new in-memory ledger and the document handed to
`save_rating_data`.
-/

namespace CipherCore

/-- Python `needle in hay` (substring containment) on strings. -/
def strContains (hay needle : String) : Bool :=
  (List.range (hay.data.length + 1)).any
    (fun k => needle.data.isPrefixOf (hay.data.drop k))

/-- Python `str.lower()` (character-wise lowercasing; the markers compared
against are plain ASCII, for which this agrees with Python). -/
def strLower (s : String) : String := ⟨s.data.map Char.toLower⟩

/-- Method `AgentConversationTab.evaluate_response`: case-insensitive
keyword classification of a reply into "schlechte antwort" /
"gute antwort" / "neutral". -/
def evaluate_response (response : String) : String :=
  let resp_l := strLower response
  if strContains resp_l "wiederhole mich" then "schlechte antwort"
  else if strContains resp_l "neue perspektive" then "gute antwort"
  else "neutral"

/-! ## Remote generation client (`call_gemini_api`) -/

/-- Outcome of one attempt of `client.models.generate_content`:
a response (whose `text` may be empty), a `genai.APIError` with a status
code and message, or some other raised exception. -/
inductive ApiOutcome where
  | success (text : String)
  | apiError (status : Nat) (msg : String)
  | genericError (msg : String)
deriving DecidableEq

/-- The value computed by one invocation of `call_gemini_api`:
the returned `{"response": ...}` string, the number of attempts actually
made, and the sequence of `time.sleep(retry_delay)` waits performed before
retries (in order). -/
structure CallResult where
  response : String
  attemptsUsed : Nat
  sleeps : List Nat
deriving DecidableEq

def apiSleepSeconds : Nat := 10
def apiMaxRetries : Nat := 3

def emptyResponseMsg : String := "Leere Antwort von Gemini API."
def rateLimitMsg : String :=
  "API Rate Limit erreicht nach mehreren Versuchen. Bitte später erneut versuchen."
def overloadMsg : String := "Gemini API Server überlastet nach mehreren Versuchen."
def authErrorMsg : String :=
  "Authentifizierungsfehler bei der Gemini API. Überprüfen Sie den API-Schlüssel."
def unexpectedErrMsg (err : String) : String :=
  "Unerwarteter Fehler bei Gemini API Aufruf nach mehreren Versuchen: " ++ err
def genericErrMsg (err : String) : String :=
  "Fehler bei Gemini API Aufruf: " ++ err
def fallthroughMsg : String := "Unbekannter Fehler nach mehreren API-Versuchen."

/-- The retry loop `for attempt in range(self.api_max_retries + 1)` of
`call_gemini_api`. `outcomes n` is the result of the `n`-th attempt
(0-based); `fuel` is the number of loop passes remaining, `attempt` the
current 0-based attempt index, `delay` the current `retry_delay`, and
`sleeps` the retry waits performed so far (reversed). -/
def callAttempts (outcomes : Nat → ApiOutcome) (maxRetries : Nat) :
    Nat → Nat → Nat → List Nat → CallResult
  | 0, attempt, _, sleeps => ⟨fallthroughMsg, attempt, sleeps.reverse⟩
  | fuel + 1, attempt, delay, sleeps =>
    match outcomes attempt with
    | .success t =>
      if t = "" then ⟨emptyResponseMsg, attempt + 1, sleeps.reverse⟩
      else ⟨t, attempt + 1, sleeps.reverse⟩
    | .apiError status msg =>
      if status = 429 then
        if attempt < maxRetries then
          callAttempts outcomes maxRetries fuel (attempt + 1) (delay * 2)
            (delay * 2 :: sleeps)
        else ⟨rateLimitMsg, attempt + 1, sleeps.reverse⟩
      else if status = 503 then
        if attempt < maxRetries then
          callAttempts outcomes maxRetries fuel (attempt + 1) delay (delay :: sleeps)
        else ⟨overloadMsg, attempt + 1, sleeps.reverse⟩
      else if status = 401 then
        ⟨authErrorMsg, attempt + 1, sleeps.reverse⟩
      else
        if attempt < maxRetries then
          callAttempts outcomes maxRetries fuel (attempt + 1) delay (delay :: sleeps)
        else ⟨unexpectedErrMsg msg, attempt + 1, sleeps.reverse⟩
    | .genericError msg => ⟨genericErrMsg msg, attempt + 1, sleeps.reverse⟩

/-- Method `AgentConversationTab.call_gemini_api`, as a function of the
outcome of each attempt.  It always returns a result dictionary (it raises
nothing: `genai.APIError` and `Exception` are both caught in the source). -/
def call_gemini_api (outcomes : Nat → ApiOutcome) : CallResult :=
  callAttempts outcomes apiMaxRetries (apiMaxRetries + 1) 0 apiSleepSeconds []

/-! ## Rating ledger (`rate_agent_response`) -/

/-- The nested `discussion_id -> iteration -> agent_name -> counters`
dictionary `self.discussion_ratings`. -/
def RatingLedger : Type := String → Nat → String → Option (Nat × Nat)

/-- Counters stored for a key, with the lazily-created `{0, 0}` default. -/
def ledgerCounts (led : RatingLedger) (did : String) (itn : Nat)
    (agent : String) : Nat × Nat :=
  (led did itn agent).getD (0, 0)

/-- Method `AgentConversationTab.rate_agent_response`: lazily creates the
nested entry, increments the matching counter, and hands the full updated
ledger to `save_rating_data`.  Returns `(new in-memory ledger, persisted
document)`. -/
def rate_agent_response (led : RatingLedger) (did : String) (itn : Nat)
    (agent : String) (rating_type : String) : RatingLedger × RatingLedger :=
  let cur := (led did itn agent).getD (0, 0)
  let upd :=
    if rating_type = "upvote" then (cur.1 + 1, cur.2)
    else if rating_type = "downvote" then (cur.1, cur.2 + 1)
    else cur
  let led1 : RatingLedger := fun d i a =>
    if d = did ∧ i = itn ∧ a = agent then some upd else led d i a
  (led1, led1)

/-- A sequence of vote calls, applied in order; each call also persists
(the persisted snapshot is the first component's value after each step). -/
def rateMany (led : RatingLedger)
    (votes : List (String × Nat × String × String)) : RatingLedger :=
  votes.foldl
    (fun l v => (rate_agent_response l v.1 v.2.1 v.2.2.1 v.2.2.2).1) led

/-! ## Conversation orchestrator (`joint_conversation_with_selected_agents`) -/

/-- One entry of `selected_agents` (name, personality, and the
`instruction` taken from the agent configuration's description). -/
structure Agent where
  name : String
  personality : String
  instruction : String
deriving DecidableEq

/-- Run configuration: the arguments of
`joint_conversation_with_selected_agents` that shape the run. -/
structure RunCfg where
  topic : String
  roster : List Agent
  iterations : Nat
  language : String
  user : Option String
deriving DecidableEq

/-- One `chat_history` entry.  The code appends plain
`{"role", "content"}` dictionaries; the constructors record which template
produced the entry, and `ChatMsg.role` / `ChatMsg.content` recover the
literal dictionary fields. -/
inductive ChatMsg where
  | userTurn (iter : Nat) (agent : String) (prevAgent : String)
      (prevOutput : String) (topic : String)
  | assistantTurn (iter : Nat) (agent : String) (output : String)
  | summaryMsg (text : String)
  | finalMsg (text : String)
deriving DecidableEq

def ChatMsg.role : ChatMsg → String
  | .userTurn .. => "user"
  | _ => "assistant"

def ChatMsg.content : ChatMsg → String
  | .userTurn i a p po topic =>
    "Agent " ++ a ++ " (Iteration " ++ toString i ++ "): Thema " ++ topic ++
      ", vorheriger: " ++ p ++ ": " ++ po
  | .assistantTurn i a o =>
    "Antwort von Agent " ++ a ++ " (Iteration " ++ toString i ++ "):\n" ++ o
  | .summaryMsg t => "**Zusammenfassung**:\n" ++ t
  | .finalMsg t => "Finale Aussage:\n" ++ t

def ChatMsg.isTurnAnswer : ChatMsg → Bool
  | .assistantTurn .. => true
  | _ => false

/-- The prompt template assembled for one turn (lines 334-354 of the
source: base text, personality directive, language directive). -/
def buildPrompt (topic : String) (iter1 : Nat) (ag : Agent)
    (prevName prevOutput language : String) : String :=
  let base :=
    "Wir führen eine Konversation über: \x27" ++ topic ++ "\x27.\n" ++
    "Iteration " ++ toString iter1 ++ ": Agent " ++ ag.name ++
    " (Spezialist für **" ++ ag.name ++ "**). " ++ ag.instruction ++ "\n" ++
    "Agent " ++ prevName ++ " sagte: " ++ prevOutput ++ "\n"
  let p :=
    if ag.personality = "kritisch" then
      base ++ "\nSei kritisch und hinterfrage Annahmen."
    else if ag.personality = "visionär" then
      base ++ "\nSei visionär und denke groß."
    else if ag.personality = "konservativ" then
      base ++ "\nSei konservativ und bleibe bei Bewährtem."
    else base
  if language = "Deutsch" then p ++ "\n\nAntworte auf Deutsch."
  else if language = "Englisch" then p ++ "\n\nRespond in English."
  else if language = "Französisch" then p ++ "\n\nRépondez en français."
  else if language = "Spanisch" then p ++ "\n\nResponde en español."
  else p

/-- The sentinel written into every window slot on a stagnation trigger. -/
def newTopicSentinel : String := "Neues Thema: KI-Trends 2026"

/-- The retry-filter marker of line 370:
`if "Fehler bei Gemini API Aufruf" not in retry_output`. -/
def retryErrMarker : String := "Fehler bei Gemini API Aufruf"

/-- Everything the loop body computes for one iteration, recorded for
observation: indices, names, window reads, outputs, the quality-retry
decision and the stagnation decision. -/
structure TurnRec where
  iterationIndex : Nat
  agentIdx : Nat
  agentName : String
  personality : String
  prevIdx : Nat
  prevAgentName : String
  prevOutput : String
  promptSent : String
  rawOutput : String
  wasRetried : Bool
  output : String
  prevSlotAtCheck : String
  stagnationFired : Bool
deriving DecidableEq, Inhabited

/-- Mutable loop state: the running call counter (which invocation of
`call_gemini_api` comes next), the `agent_outputs` window, the
`topic_changed` flag, `chat_history`, and the turn trace. -/
structure ConvoState where
  callIdx : Nat
  outputs : List String
  topicChanged : Bool
  history : List ChatMsg
  turns : List TurnRec
deriving DecidableEq

/-- The loop body's computations for iteration `i` (0-based), from state
`s`.  `gen k` is the `response` string produced by the `k`-th invocation of
`call_gemini_api` during the run (the client always returns a string, see
`call_gemini_api`).

The stagnation guard `i > iterations * 0.6` of line 388 is embedded as
`3 * iterations < 5 * i`: for integer `i` and `iterations` the float
comparison agrees with the exact rational one (the relative rounding error
of `iterations * 0.6` is below the distance of `0.6 * iterations` to any
distinct integer, and below half an ulp whenever `0.6 * iterations` is an
integer). -/
def mkTurn (cfg : RunCfg) (gen : Nat → String) (s : ConvoState) (i : Nat) :
    TurnRec :=
  let R := cfg.roster.length
  let names := cfg.roster.map Agent.name
  let agentIdx := i % R
  let currentName := names.getD agentIdx ""
  let ag := (cfg.roster.find? (fun a => a.name = currentName)).getD
    ⟨currentName, "neutral", ""⟩
  let prevIdx := (agentIdx + R - 1) % R
  let prevName := names.getD prevIdx ""
  let prevOutput := s.outputs.getD prevIdx ""
  let promptTxt := buildPrompt cfg.topic (i + 1) ag prevName prevOutput cfg.language
  let rawOutput := gen s.callIdx
  let wasRetried := decide (evaluate_response rawOutput = "schlechte antwort")
  let output :=
    if wasRetried then
      let retryOut := gen (s.callIdx + 1)
      if strContains retryOut retryErrMarker then rawOutput else retryOut
    else rawOutput
  let afterStore := s.outputs.set agentIdx output
  let prevSlotAtCheck := afterStore.getD prevIdx ""
  let fire := decide (3 * cfg.iterations < 5 * i) &&
    decide (output = prevSlotAtCheck) && !s.topicChanged
  { iterationIndex := i + 1, agentIdx, agentName := currentName,
    personality := ag.personality, prevIdx, prevAgentName := prevName,
    prevOutput, promptSent := promptTxt, rawOutput, wasRetried, output,
    prevSlotAtCheck, stagnationFired := fire }

/-- The two `chat_history` entries appended during one turn (lines 356-359
and 374-377). -/
def msgsOfTurn (topic : String) (t : TurnRec) : List ChatMsg :=
  [ChatMsg.userTurn t.iterationIndex t.agentName t.prevAgentName t.prevOutput topic,
   ChatMsg.assistantTurn t.iterationIndex t.agentName t.output]

/-- One pass of the `for i in range(iterations)` loop: perform the turn's
calls, store the output in the window, append the history entries, and
apply the stagnation injection of lines 388-391. -/
def stepState (cfg : RunCfg) (gen : Nat → String) (s : ConvoState) (i : Nat) :
    ConvoState :=
  let t := mkTurn cfg gen s i
  { callIdx := s.callIdx + (if t.wasRetried then 2 else 1)
    outputs :=
      if t.stagnationFired then List.replicate cfg.roster.length newTopicSentinel
      else s.outputs.set t.agentIdx t.output
    topicChanged := s.topicChanged || t.stagnationFired
    history := s.history ++ msgsOfTurn cfg.topic t
    turns := s.turns ++ [t] }

/-- Loop state before the first iteration: `agent_outputs = [""] * R`,
`topic_changed = False`, the caller-supplied `chat_history`. -/
def initState (cfg : RunCfg) (h0 : List ChatMsg) : ConvoState :=
  ⟨0, List.replicate cfg.roster.length "", false, h0, []⟩

/-- State after the first `k` loop iterations. -/
def runTurns (cfg : RunCfg) (gen : Nat → String) (h0 : List ChatMsg) :
    Nat → ConvoState
  | 0 => initState cfg h0
  | k + 1 => stepState cfg gen (runTurns cfg gen h0 k) k

/-- Behaviour of `save_discussion_data_db`: `sqlite3.connect` is evaluated
outside the `try` block, so a connection failure raises out of the
function; `cursor.execute` / `commit` failures are caught (`sqlite3.Error`
-> logged rollback), so an insert failure still returns normally. -/
structure DbEnv where
  connectOk : Bool
  insertOk : Bool
deriving DecidableEq

def save_discussion_data_db (env : DbEnv) : Except String Unit :=
  if env.connectOk then Except.ok () else Except.error "sqlite3.OperationalError"

/-- Result of a completed run, including the streamed `yield` sequence:
one `some (iteration, agentName)` element per turn (line 386) plus the
final `none, none` element (line 415). -/
structure RunOutput where
  history : List ChatMsg
  turns : List TurnRec
  summaryText : String
  finalText : String
  totalCalls : Nat
  savedToDb : Bool
  yields : List (Option (Nat × String))
deriving DecidableEq

/-- Method `joint_conversation_with_selected_agents` end to end.
`Except.error` marks an escaping Python exception: `i % num_agents` with an empty roster
raises `ZeroDivisionError` (and `agent_outputs[-1]` would raise
`IndexError` even for `iterations = 0`), and a database connection failure
during `save_discussion_data_db` propagates. -/
def joint_conversation (cfg : RunCfg) (gen : Nat → String) (env : DbEnv)
    (h0 : List ChatMsg) : Except String RunOutput :=
  if cfg.roster.isEmpty then
    Except.error "ZeroDivisionError/IndexError: empty roster"
  else
    let s := runTurns cfg gen h0 cfg.iterations
    let sumText := gen s.callIdx
    let hist1 := s.history ++ [ChatMsg.summaryMsg sumText]
    match (if cfg.user.isSome then save_discussion_data_db env else Except.ok ()) with
    | .error e => Except.error e
    | .ok _ =>
      let finalText := s.outputs.getLastD ""
      Except.ok
        { history := hist1 ++ [ChatMsg.finalMsg finalText]
          turns := s.turns
          summaryText := sumText
          finalText := finalText
          totalCalls := s.callIdx + 1
          savedToDb := cfg.user.isSome
          yields := s.turns.map (fun t => some (t.iterationIndex, t.agentName))
            ++ [none] }

/-! ## UI entry point (`process_input_custom_agents`) -/

/-- Result of `process_input_custom_agents`: with an empty selection it
yields the validation message once and returns without invoking the
orchestrator; otherwise it drives `joint_conversation_with_selected_agents`. -/
inductive ProcessOutcome where
  | validationError (msg : String)
  | ran (r : Except String RunOutput)

def process_input_custom_agents (cfg : RunCfg) (gen : Nat → String)
    (env : DbEnv) (h0 : List ChatMsg) : ProcessOutcome :=
  if cfg.roster.isEmpty then
    ProcessOutcome.validationError "Keine Agenten ausgewählt!"
  else ProcessOutcome.ran (joint_conversation cfg gen env h0)

/-! ## Basic lemmas about the embedding -/

theorem getD_replicate (a : α) : ∀ (n p : Nat), (List.replicate n a).getD p a = a
  | 0, _ => rfl
  | _ + 1, 0 => rfl
  | n + 1, p + 1 => getD_replicate a n p

theorem getLastD_set_last (v d : String) :
    ∀ (l : List String), l ≠ [] → (l.set (l.length - 1) v).getLastD d = v
  | [], h => absurd rfl h
  | [_], _ => rfl
  | a :: b :: t, _ => by
    have hset : ((a :: b :: t).set ((a :: b :: t).length - 1) v) =
        a :: ((b :: t).set ((b :: t).length - 1) v) := rfl
    rw [hset, List.getLastD_cons]
    exact getLastD_set_last v a (b :: t) (by simp)

/-- Projections of the record built by `mkTurn` (all definitional). -/
theorem mkTurn_iterationIndex (cfg : RunCfg) (gen : Nat → String)
    (s : ConvoState) (i : Nat) : (mkTurn cfg gen s i).iterationIndex = i + 1 := rfl

theorem mkTurn_agentIdx (cfg : RunCfg) (gen : Nat → String)
    (s : ConvoState) (i : Nat) :
    (mkTurn cfg gen s i).agentIdx = i % cfg.roster.length := rfl

theorem mkTurn_agentName (cfg : RunCfg) (gen : Nat → String)
    (s : ConvoState) (i : Nat) :
    (mkTurn cfg gen s i).agentName =
      (cfg.roster.map Agent.name).getD (i % cfg.roster.length) "" := rfl

theorem mkTurn_prevIdx (cfg : RunCfg) (gen : Nat → String)
    (s : ConvoState) (i : Nat) :
    (mkTurn cfg gen s i).prevIdx =
      (i % cfg.roster.length + cfg.roster.length - 1) % cfg.roster.length := rfl

theorem mkTurn_prevAgentName (cfg : RunCfg) (gen : Nat → String)
    (s : ConvoState) (i : Nat) :
    (mkTurn cfg gen s i).prevAgentName =
      (cfg.roster.map Agent.name).getD
        ((i % cfg.roster.length + cfg.roster.length - 1) % cfg.roster.length) "" := rfl

theorem mkTurn_prevOutput (cfg : RunCfg) (gen : Nat → String)
    (s : ConvoState) (i : Nat) :
    (mkTurn cfg gen s i).prevOutput =
      s.outputs.getD
        ((i % cfg.roster.length + cfg.roster.length - 1) % cfg.roster.length) "" := rfl

theorem mkTurn_rawOutput (cfg : RunCfg) (gen : Nat → String)
    (s : ConvoState) (i : Nat) : (mkTurn cfg gen s i).rawOutput = gen s.callIdx := rfl

theorem mkTurn_wasRetried (cfg : RunCfg) (gen : Nat → String)
    (s : ConvoState) (i : Nat) :
    (mkTurn cfg gen s i).wasRetried =
      decide (evaluate_response (gen s.callIdx) = "schlechte antwort") := rfl

theorem mkTurn_output_def (cfg : RunCfg) (gen : Nat → String)
    (s : ConvoState) (i : Nat) :
    (mkTurn cfg gen s i).output =
      (if (mkTurn cfg gen s i).wasRetried then
        (if strContains (gen (s.callIdx + 1)) retryErrMarker then gen s.callIdx
         else gen (s.callIdx + 1))
       else gen s.callIdx) := rfl

theorem mkTurn_prevSlotAtCheck (cfg : RunCfg) (gen : Nat → String)
    (s : ConvoState) (i : Nat) :
    (mkTurn cfg gen s i).prevSlotAtCheck =
      (s.outputs.set (i % cfg.roster.length) (mkTurn cfg gen s i).output).getD
        ((i % cfg.roster.length + cfg.roster.length - 1) % cfg.roster.length) "" := rfl

theorem mkTurn_stagnationFired (cfg : RunCfg) (gen : Nat → String)
    (s : ConvoState) (i : Nat) :
    (mkTurn cfg gen s i).stagnationFired =
      (decide (3 * cfg.iterations < 5 * i) &&
        decide ((mkTurn cfg gen s i).output = (mkTurn cfg gen s i).prevSlotAtCheck) &&
        !s.topicChanged) := rfl

/-- Projections of `stepState` (all definitional). -/
theorem stepState_turns (cfg : RunCfg) (gen : Nat → String)
    (s : ConvoState) (i : Nat) :
    (stepState cfg gen s i).turns = s.turns ++ [mkTurn cfg gen s i] := rfl

theorem stepState_history (cfg : RunCfg) (gen : Nat → String)
    (s : ConvoState) (i : Nat) :
    (stepState cfg gen s i).history =
      s.history ++ msgsOfTurn cfg.topic (mkTurn cfg gen s i) := rfl

theorem stepState_outputs (cfg : RunCfg) (gen : Nat → String)
    (s : ConvoState) (i : Nat) :
    (stepState cfg gen s i).outputs =
      (if (mkTurn cfg gen s i).stagnationFired then
        List.replicate cfg.roster.length newTopicSentinel
       else s.outputs.set (mkTurn cfg gen s i).agentIdx (mkTurn cfg gen s i).output) := rfl

theorem stepState_topicChanged (cfg : RunCfg) (gen : Nat → String)
    (s : ConvoState) (i : Nat) :
    (stepState cfg gen s i).topicChanged =
      (s.topicChanged || (mkTurn cfg gen s i).stagnationFired) := rfl

theorem stepState_callIdx (cfg : RunCfg) (gen : Nat → String)
    (s : ConvoState) (i : Nat) :
    (stepState cfg gen s i).callIdx =
      s.callIdx + (if (mkTurn cfg gen s i).wasRetried then 2 else 1) := rfl

theorem runTurns_succ (cfg : RunCfg) (gen : Nat → String) (h0 : List ChatMsg)
    (k : Nat) :
    runTurns cfg gen h0 (k + 1) = stepState cfg gen (runTurns cfg gen h0 k) k := rfl

/-- The output window keeps the roster's length throughout the run. -/
theorem runTurns_outputs_length (cfg : RunCfg) (gen : Nat → String)
    (h0 : List ChatMsg) : ∀ k,
    (runTurns cfg gen h0 k).outputs.length = cfg.roster.length := by
  intro k
  induction k with
  | zero => simp [runTurns, initState]
  | succ k ih =>
    rw [runTurns_succ, stepState_outputs]
    split
    · simp
    · simp [ih]

/-- The turn appended at loop pass `j` of a run. -/
def turnAt (cfg : RunCfg) (gen : Nat → String) (h0 : List ChatMsg) (j : Nat) :
    TurnRec :=
  mkTurn cfg gen (runTurns cfg gen h0 j) j

/-- The turn trace after `k` passes is the list of the turns appended at
passes `0 .. k-1`, in order. -/
theorem runTurns_turns_eq (cfg : RunCfg) (gen : Nat → String)
    (h0 : List ChatMsg) : ∀ k,
    (runTurns cfg gen h0 k).turns = (List.range k).map (turnAt cfg gen h0) := by
  intro k
  induction k with
  | zero => simp [runTurns, initState]
  | succ k ih =>
    rw [runTurns_succ, stepState_turns, ih, List.range_succ, List.map_append]
    rfl

theorem runTurns_turns_length (cfg : RunCfg) (gen : Nat → String)
    (h0 : List ChatMsg) (k : Nat) :
    (runTurns cfg gen h0 k).turns.length = k := by
  rw [runTurns_turns_eq]; simp

theorem runTurns_turns_getD (cfg : RunCfg) (gen : Nat → String)
    (h0 : List ChatMsg) (k j : Nat) (hj : j < k) :
    ((runTurns cfg gen h0 k).turns).getD j default = turnAt cfg gen h0 j := by
  rw [runTurns_turns_eq]
  have hlen : j < ((List.range k).map (turnAt cfg gen h0)).length := by
    simpa using hj
  rw [List.getD_eq_getElem _ _ hlen]
  simp

/-- The history after `k` passes is the initial history followed by the
two entries of each recorded turn, in order. -/
theorem runTurns_history_eq (cfg : RunCfg) (gen : Nat → String)
    (h0 : List ChatMsg) : ∀ k,
    (runTurns cfg gen h0 k).history =
      h0 ++ ((runTurns cfg gen h0 k).turns).flatMap (msgsOfTurn cfg.topic) := by
  intro k
  induction k with
  | zero => simp [runTurns, initState]
  | succ k ih =>
    rw [runTurns_succ, stepState_history, stepState_turns, ih]
    simp [List.flatMap_append]

/-- A turn can fire the stagnation injection only from a state whose
`topic_changed` flag is still cleared. -/
theorem mkTurn_fired_topicChanged (cfg : RunCfg) (gen : Nat → String)
    (s : ConvoState) (i : Nat)
    (h : (mkTurn cfg gen s i).stagnationFired = true) : s.topicChanged = false := by
  rw [mkTurn_stagnationFired] at h
  rcases Bool.and_eq_true_iff.mp h with ⟨-, h2⟩
  simpa using h2

/-- Exactly as many turns fired the injection as the `topic_changed` flag
records: zero while it is cleared, one once it is set. -/
theorem runTurns_countP_fired (cfg : RunCfg) (gen : Nat → String)
    (h0 : List ChatMsg) : ∀ k,
    ((runTurns cfg gen h0 k).turns).countP (fun t => t.stagnationFired) =
      (if (runTurns cfg gen h0 k).topicChanged then 1 else 0) := by
  intro k
  induction k with
  | zero => simp [runTurns, initState]
  | succ k ih =>
    rw [runTurns_succ, stepState_turns, stepState_topicChanged,
      List.countP_append, ih]
    by_cases hf : (mkTurn cfg gen (runTurns cfg gen h0 k) k).stagnationFired = true
    · rw [mkTurn_fired_topicChanged cfg gen _ k hf]
      simp [List.countP_cons, hf]
    · simp only [Bool.not_eq_true] at hf
      simp [List.countP_cons, hf]

/-- Each recorded turn contributes exactly one assistant turn-answer entry
to the history. -/
theorem countP_turnAnswer_flatMap (topic : String) : ∀ ts : List TurnRec,
    ((ts.flatMap (msgsOfTurn topic)).countP ChatMsg.isTurnAnswer) = ts.length
  | [] => rfl
  | t :: ts => by
    simp [List.flatMap_cons, List.countP_append, msgsOfTurn, List.countP_cons,
      ChatMsg.isTurnAnswer, countP_turnAnswer_flatMap topic ts, Nat.add_comm]

def ChatMsg.isTurnEntry : ChatMsg → Bool
  | .userTurn .. => true
  | .assistantTurn .. => true
  | _ => false

/-- Turn history entries are turn entries only: neither the summary nor
the final statement appears among them. -/
theorem all_turnEntry_flatMap (topic : String) : ∀ ts : List TurnRec,
    ((ts.flatMap (msgsOfTurn topic)).all ChatMsg.isTurnEntry) = true
  | [] => rfl
  | t :: ts => by
    simp [List.flatMap_cons, List.all_append, msgsOfTurn, ChatMsg.isTurnEntry,
      all_turnEntry_flatMap topic ts]

/-- The output of a completed run (the value behind the `Except.ok` of a
run that finishes). -/
def runOutputOf (cfg : RunCfg) (gen : Nat → String) (h0 : List ChatMsg) :
    RunOutput :=
  let s := runTurns cfg gen h0 cfg.iterations
  let sumText := gen s.callIdx
  let finalText := s.outputs.getLastD ""
  { history := (s.history ++ [ChatMsg.summaryMsg sumText]) ++ [ChatMsg.finalMsg finalText]
    turns := s.turns
    summaryText := sumText
    finalText := finalText
    totalCalls := s.callIdx + 1
    savedToDb := cfg.user.isSome
    yields := s.turns.map (fun t => some (t.iterationIndex, t.agentName)) ++ [none] }

/-- With a non-empty roster, the run completes whenever no user is logged
in or the database connection opens. -/
theorem joint_conversation_ok (cfg : RunCfg) (gen : Nat → String)
    (env : DbEnv) (h0 : List ChatMsg) (hne : cfg.roster.isEmpty = false)
    (hdb : cfg.user = none ∨ env.connectOk = true) :
    joint_conversation cfg gen env h0 = Except.ok (runOutputOf cfg gen h0) := by
  rcases hdb with hu | hc
  · simp [joint_conversation, hne, hu, runOutputOf]
  · simp [joint_conversation, hne, save_discussion_data_db, hc, runOutputOf]

/-- With a one-agent roster, every turn's stagnation comparison is a
self-comparison: the previous-agent slot coincides with the slot just
written. -/
theorem mkTurn_R1_selfCompare (cfg : RunCfg) (gen : Nat → String)
    (s : ConvoState) (k : Nat) (hR : cfg.roster.length = 1)
    (hlen : s.outputs.length = 1) :
    (mkTurn cfg gen s k).prevSlotAtCheck = (mkTurn cfg gen s k).output := by
  obtain ⟨x, hx⟩ : ∃ x, s.outputs = [x] := by
    cases houts : s.outputs with
    | nil => rw [houts] at hlen; simp at hlen
    | cons a t =>
      cases t with
      | nil => exact ⟨a, rfl⟩
      | cons b t2 => rw [houts] at hlen; simp at hlen
  rw [mkTurn_prevSlotAtCheck, hR, hx]
  simp [Nat.mod_one, List.set]

/-- With a one-agent roster the `topic_changed` flag after `k` passes is
set exactly when the firing pass `3·N/5 + 1` has already happened. -/
theorem runTurns_R1_topicChanged (cfg : RunCfg) (gen : Nat → String)
    (h0 : List ChatMsg) (hR : cfg.roster.length = 1) : ∀ k,
    (runTurns cfg gen h0 k).topicChanged =
      decide (3 * cfg.iterations / 5 + 1 < k) := by
  intro k
  induction k with
  | zero => simp [runTurns, initState]
  | succ k ih =>
    rw [runTurns_succ, stepState_topicChanged, ih, mkTurn_stagnationFired,
      mkTurn_R1_selfCompare cfg gen _ k hR
        (by rw [runTurns_outputs_length, hR]), ih]
    by_cases h1 : 3 * cfg.iterations / 5 + 1 < k
    · simp [h1, Nat.lt_succ_of_lt h1]
    · have hd : decide (3 * cfg.iterations / 5 + 1 < k) = false := by
        simpa using h1
      simp only [hd, Bool.not_false, Bool.and_true, Bool.false_or, decide_eq_true_eq]
      simp only [decide_eq_true_eq, eq_self_iff_true, decide_True, Bool.and_true]
      exact decide_eq_decide.mpr (by omega)

/-- With a one-agent roster, pass `j` fires the stagnation injection iff
`j` is exactly `3·N/5 + 1` (the first 0-based index `i` with
`i > 0.6·N`). -/
theorem turnAt_R1_fired (cfg : RunCfg) (gen : Nat → String)
    (h0 : List ChatMsg) (hR : cfg.roster.length = 1) (j : Nat) :
    (turnAt cfg gen h0 j).stagnationFired =
      decide (j = 3 * cfg.iterations / 5 + 1) := by
  unfold turnAt
  rw [mkTurn_stagnationFired,
    mkTurn_R1_selfCompare cfg gen _ j hR (by rw [runTurns_outputs_length, hR]),
    runTurns_R1_topicChanged cfg gen h0 hR]
  by_cases h1 : 3 * cfg.iterations / 5 + 1 < j
  · simp [h1]; omega
  · have hd : decide (3 * cfg.iterations / 5 + 1 < j) = false := by
      simpa using h1
    simp only [hd, Bool.not_false, Bool.and_true, decide_eq_true_eq,
      eq_self_iff_true, decide_True]
    exact decide_eq_decide.mpr (by omega)

/-- The Python previous-index expression `(agent_idx - 1) % R` applied to
`agent_idx = (i-1) % R` equals `(i + R - 2) % R`. -/
theorem prevIdx_shift (i R : Nat) (h1 : 1 ≤ i) (hR : 1 ≤ R) :
    ((i - 1) % R + R - 1) % R = (i + R - 2) % R := by
  have e1 : (i - 1) % R + R - 1 = (i - 1) % R + (R - 1) := by omega
  rw [e1, Nat.mod_add_mod]
  have e2 : i - 1 + (R - 1) = i + R - 2 := by omega
  rw [e2]

/-- On integers, `(i + R - 2) mod R` is exactly `(i - 2) mod R`. -/
theorem prevIdx_int (i R : Nat) (h1 : 1 ≤ i) (hR : 1 ≤ R) :
    (((i + R - 2) % R : ℕ) : ℤ) = ((i : ℤ) - 2) % (R : ℤ) := by
  have e : ((i + R - 2 : ℕ) : ℤ) = (i : ℤ) - 2 + (R : ℤ) * 1 := by omega
  rw [Int.natCast_mod, e, Int.add_mul_emod_self_left]

/-- The retry loop makes at most `attempt + fuel` attempts in total. -/
theorem callAttempts_attempts_le (oc : Nat → ApiOutcome) (mr : Nat) :
    ∀ fuel attempt delay sleeps,
      (callAttempts oc mr fuel attempt delay sleeps).attemptsUsed ≤ attempt + fuel := by
  intro fuel
  induction fuel with
  | zero => intro attempt delay sleeps; simp [callAttempts]
  | succ fuel ih =>
    intro attempt delay sleeps
    cases h : oc attempt with
    | success t =>
      simp only [callAttempts, h]
      split <;> simp
    | apiError status msg =>
      simp only [callAttempts, h]
      split_ifs <;>
        first
          | exact (ih (attempt + 1) _ _).trans (by omega)
          | simp
    | genericError msg =>
      simp only [callAttempts, h]
      simp

/-! ## Example run configurations used by witnesses -/

def wRoster2 : List Agent := [⟨"A", "neutral", ""⟩, ⟨"B", "neutral", ""⟩]

def wGen : Nat → String := fun k => "out" ++ toString k

def wCfg23 : RunCfg := ⟨"X", wRoster2, 3, "Deutsch", none⟩

def wCfg24 : RunCfg := ⟨"X", wRoster2, 4, "Deutsch", none⟩

def wCfg15 : RunCfg := ⟨"X", [⟨"A", "neutral", ""⟩], 5, "Deutsch", none⟩

/-! ## Claim theorems -/

/-- C1: for every run with roster size `R ≥ 1` and `N ≥ 1` iterations, the
speaking agent of 1-based iteration `i ∈ [1, N]` is `roster[(i-1) mod R]`,
the previous-agent reference is `roster[(i-2) mod R]` (stated over `ℕ` as
`(i + R - 2) mod R`, which the third conjunct identifies with the integer
`(i - 2) mod R`), and on iteration 1 the previous output read from the
window is the initial empty string. -/
theorem turn_schedule_round_robin (cfg : RunCfg) (gen : Nat → String)
    (h0 : List ChatMsg) (hR : 1 ≤ cfg.roster.length) (i : Nat)
    (h1 : 1 ≤ i) (h2 : i ≤ cfg.iterations) :
    (((runTurns cfg gen h0 cfg.iterations).turns).getD (i - 1) default).agentName =
      (cfg.roster.map Agent.name).getD ((i - 1) % cfg.roster.length) "" ∧
    (((runTurns cfg gen h0 cfg.iterations).turns).getD (i - 1) default).prevAgentName =
      (cfg.roster.map Agent.name).getD
        ((i + cfg.roster.length - 2) % cfg.roster.length) "" ∧
    (((i + cfg.roster.length - 2) % cfg.roster.length : ℕ) : ℤ) =
      ((i : ℤ) - 2) % (cfg.roster.length : ℤ) ∧
    (i = 1 →
      (((runTurns cfg gen h0 cfg.iterations).turns).getD (i - 1) default).prevOutput = "") := by
  rw [runTurns_turns_getD cfg gen h0 cfg.iterations (i - 1) (by omega)]
  unfold turnAt
  refine ⟨mkTurn_agentName cfg gen _ (i - 1), ?_, prevIdx_int i _ h1 hR, ?_⟩
  · rw [mkTurn_prevAgentName, prevIdx_shift i cfg.roster.length h1 hR]
  · intro hi
    subst hi
    rw [mkTurn_prevOutput]
    exact getD_replicate "" cfg.roster.length _

theorem turn_schedule_round_robin_witness :
    (1 ≤ wCfg23.roster.length ∧ 1 ≤ wCfg23.iterations) ∧
    ((((runTurns wCfg23 wGen [] wCfg23.iterations).turns).getD (1 - 1) default).agentName =
      (wCfg23.roster.map Agent.name).getD ((1 - 1) % wCfg23.roster.length) "" ∧
    (((runTurns wCfg23 wGen [] wCfg23.iterations).turns).getD (1 - 1) default).prevAgentName =
      (wCfg23.roster.map Agent.name).getD
        ((1 + wCfg23.roster.length - 2) % wCfg23.roster.length) "" ∧
    (((1 + wCfg23.roster.length - 2) % wCfg23.roster.length : ℕ) : ℤ) =
      ((1 : ℤ) - 2) % (wCfg23.roster.length : ℤ) ∧
    (1 = 1 →
      (((runTurns wCfg23 wGen [] wCfg23.iterations).turns).getD (1 - 1) default).prevOutput = "")) :=
  ⟨⟨by decide, by decide⟩,
    turn_schedule_round_robin wCfg23 wGen [] (by decide) 1 (by decide) (by decide)⟩

/-- C2: the remote generation call makes at most 4 total attempts; with a
persistent rate-limit signal the three retry delays double (20, 40, 80
starting from the base delay 10) and the rate-limit error string is
returned; with a persistent overload signal or any other persistent API
error the three retry delays are constant and the matching error string is
returned; an authentication failure (status 401) is never retried and
returns its error string after a single attempt. All failures are returned
as result strings, never raised. -/
theorem call_gemini_api_retry_policy :
    (∀ oc : Nat → ApiOutcome, (call_gemini_api oc).attemptsUsed ≤ apiMaxRetries + 1) ∧
    call_gemini_api (fun _ => ApiOutcome.apiError 429 "r") =
      ⟨rateLimitMsg, 4, [20, 40, 80]⟩ ∧
    call_gemini_api (fun _ => ApiOutcome.apiError 503 "s") =
      ⟨overloadMsg, 4, [10, 10, 10]⟩ ∧
    call_gemini_api (fun _ => ApiOutcome.apiError 500 "e") =
      ⟨unexpectedErrMsg "e", 4, [10, 10, 10]⟩ ∧
    call_gemini_api (fun n => if n = 0 then ApiOutcome.apiError 503 "s"
        else ApiOutcome.apiError 401 "m") = ⟨authErrorMsg, 2, [10]⟩ ∧
    (∀ (oc : Nat → ApiOutcome) (m : String), oc 0 = ApiOutcome.apiError 401 m →
      call_gemini_api oc = ⟨authErrorMsg, 1, []⟩) := by
  refine ⟨fun oc => callAttempts_attempts_le oc apiMaxRetries (apiMaxRetries + 1) 0 apiSleepSeconds [],
    rfl, rfl, rfl, rfl, ?_⟩
  intro oc m h
  simp [call_gemini_api, callAttempts, h, apiMaxRetries, apiSleepSeconds]

theorem call_gemini_api_retry_policy_witness :
    (fun _ => ApiOutcome.apiError 401 "x") 0 = ApiOutcome.apiError 401 "x" ∧
    call_gemini_api (fun _ => ApiOutcome.apiError 401 "x") = ⟨authErrorMsg, 1, []⟩ :=
  ⟨rfl, call_gemini_api_retry_policy.2.2.2.2.2 (fun _ => ApiOutcome.apiError 401 "x") "x" rfl⟩

/-- C4: in every run the stagnation injection fires at most once; whenever
the turn of 0-based pass `j` fires, the guard `i > 0.6·N` held (so the
1-based iteration is at least `⌈0.6·N⌉ = (3N+4)/5`), the turn's freshly
produced output equalled the value held in the previous agent's window
slot at check time, and every window slot was overwritten with the fixed
topic-shift sentinel. -/
theorem stagnation_injection_policy (cfg : RunCfg) (gen : Nat → String)
    (h0 : List ChatMsg) :
    (((runTurns cfg gen h0 cfg.iterations).turns).countP
        (fun t => t.stagnationFired) ≤ 1) ∧
    ∀ j, j < cfg.iterations →
      (((runTurns cfg gen h0 cfg.iterations).turns).getD j default).stagnationFired = true →
        3 * cfg.iterations < 5 * j ∧
        (3 * cfg.iterations + 4) / 5 ≤
          (((runTurns cfg gen h0 cfg.iterations).turns).getD j default).iterationIndex ∧
        (((runTurns cfg gen h0 cfg.iterations).turns).getD j default).output =
          (((runTurns cfg gen h0 cfg.iterations).turns).getD j default).prevSlotAtCheck ∧
        (runTurns cfg gen h0 (j + 1)).outputs =
          List.replicate cfg.roster.length newTopicSentinel := by
  constructor
  · rw [runTurns_countP_fired]
    split <;> omega
  · intro j hj hf
    rw [runTurns_turns_getD cfg gen h0 cfg.iterations j hj] at hf ⊢
    unfold turnAt at hf ⊢
    have hfd := hf
    rw [mkTurn_stagnationFired] at hfd
    rcases Bool.and_eq_true_iff.mp hfd with ⟨h12, -⟩
    rcases Bool.and_eq_true_iff.mp h12 with ⟨hlt, heq⟩
    have hlt' : 3 * cfg.iterations < 5 * j := of_decide_eq_true hlt
    have heq' := of_decide_eq_true heq
    refine ⟨hlt', ?_, heq', ?_⟩
    · rw [mkTurn_iterationIndex]; omega
    · rw [runTurns_succ, stepState_outputs, if_pos hf]

theorem stagnation_injection_policy_witness :
    (4 < wCfg15.iterations ∧
      (((runTurns wCfg15 wGen [] wCfg15.iterations).turns).getD 4 default).stagnationFired = true) ∧
    (3 * wCfg15.iterations < 5 * 4 ∧
      (3 * wCfg15.iterations + 4) / 5 ≤
        (((runTurns wCfg15 wGen [] wCfg15.iterations).turns).getD 4 default).iterationIndex ∧
      (((runTurns wCfg15 wGen [] wCfg15.iterations).turns).getD 4 default).output =
        (((runTurns wCfg15 wGen [] wCfg15.iterations).turns).getD 4 default).prevSlotAtCheck ∧
      (runTurns wCfg15 wGen [] (4 + 1)).outputs =
        List.replicate wCfg15.roster.length newTopicSentinel) :=
  ⟨⟨by decide, by rfl⟩,
    (stagnation_injection_policy wCfg15 wGen []).2 4 (by decide) (by rfl)⟩

/-- C10: with a roster of exactly one agent, every turn's stagnation
comparison is a self-comparison (the previous slot coincides with the slot
just written), hence holds always, and the injection fires exactly at the
first 0-based pass `j` with `j > 0.6·N`, namely `j = 3·N/5 + 1` —
regardless of whether the agent actually repeated itself. -/
theorem single_agent_stagnation (cfg : RunCfg) (gen : Nat → String)
    (h0 : List ChatMsg) (hR : cfg.roster.length = 1) (j : Nat)
    (hj : j < cfg.iterations) :
    (((runTurns cfg gen h0 cfg.iterations).turns).getD j default).output =
      (((runTurns cfg gen h0 cfg.iterations).turns).getD j default).prevSlotAtCheck ∧
    (((runTurns cfg gen h0 cfg.iterations).turns).getD j default).stagnationFired =
      decide (j = 3 * cfg.iterations / 5 + 1) := by
  rw [runTurns_turns_getD cfg gen h0 cfg.iterations j hj]
  constructor
  · exact (mkTurn_R1_selfCompare cfg gen _ j hR
      (by rw [runTurns_outputs_length, hR])).symm
  · exact turnAt_R1_fired cfg gen h0 hR j

theorem single_agent_stagnation_witness :
    (wCfg15.roster.length = 1 ∧ 4 < wCfg15.iterations) ∧
    ((((runTurns wCfg15 wGen [] wCfg15.iterations).turns).getD 4 default).output =
      (((runTurns wCfg15 wGen [] wCfg15.iterations).turns).getD 4 default).prevSlotAtCheck ∧
    (((runTurns wCfg15 wGen [] wCfg15.iterations).turns).getD 4 default).stagnationFired =
      decide (4 = 3 * wCfg15.iterations / 5 + 1)) :=
  ⟨⟨rfl, by decide⟩, single_agent_stagnation wCfg15 wGen [] rfl 4 (by decide)⟩

/-- When the last roster position speaks last (the iteration count is a
multiple of the roster size), the last 0-based pass index maps to the last
roster slot. -/
theorem last_index_mod (N R : Nat) (hN : 1 ≤ N) (hR : 1 ≤ R)
    (h : N % R = 0) : (N - 1) % R = R - 1 := by
  obtain ⟨q, hq⟩ := Nat.dvd_of_mod_eq_zero h
  cases q with
  | zero => rw [Nat.mul_zero] at hq; omega
  | succ q2 =>
    have h1 : N = q2 * R + R := by rw [hq]; ring
    have h2 : N - 1 = R - 1 + q2 * R := by omega
    rw [h2, Nat.add_mul_mod_self_right]
    exact Nat.mod_eq_of_lt (by omega)

/-- C5 (amended): with a valid configuration, every remote-call failure is
absorbed into the per-call result string and an insert/commit failure
during persistence is caught, so whenever no user is logged in — or the
database connection opens — the run completes and emits its full output
sequence of `N + 1` streamed elements; only a connection-open failure
during persistence escapes (see the counterexample). -/
theorem orchestrator_absorbs_failures (oc : Nat → Nat → ApiOutcome)
    (cfg : RunCfg) (env : DbEnv) (h0 : List ChatMsg)
    (hR : 1 ≤ cfg.roster.length) (_hN : 1 ≤ cfg.iterations)
    (hdb : cfg.user = none ∨ env.connectOk = true) :
    ∃ out, joint_conversation cfg (fun k => (call_gemini_api (oc k)).response)
        env h0 = Except.ok out ∧
      out.yields.length = cfg.iterations + 1 ∧
      out.turns.length = cfg.iterations := by
  have hne : cfg.roster.isEmpty = false := by
    cases hcs : cfg.roster with
    | nil => rw [hcs] at hR; simp at hR
    | cons a t => rfl
  refine ⟨runOutputOf cfg (fun k => (call_gemini_api (oc k)).response) h0,
    joint_conversation_ok cfg _ env h0 hne hdb, ?_, ?_⟩
  · simp [runOutputOf, runTurns_turns_length]
  · simp [runOutputOf, runTurns_turns_length]

theorem orchestrator_absorbs_failures_witness :
    (1 ≤ wCfg23.roster.length ∧ 1 ≤ wCfg23.iterations ∧
      (wCfg23.user = none ∨ (⟨false, false⟩ : DbEnv).connectOk = true)) ∧
    ∃ out, joint_conversation wCfg23
        (fun k => (call_gemini_api ((fun _ _ => ApiOutcome.apiError 429 "r") k)).response)
        ⟨false, false⟩ [] = Except.ok out ∧
      out.yields.length = wCfg23.iterations + 1 ∧
      out.turns.length = wCfg23.iterations :=
  ⟨⟨by decide, by decide, Or.inl rfl⟩,
    orchestrator_absorbs_failures (fun _ _ => ApiOutcome.apiError 429 "r")
      wCfg23 ⟨false, false⟩ [] (by decide) (by decide) (Or.inl rfl)⟩

/-- C5 (counterexample): a persistence failure raised while opening the
database connection (which line 179 evaluates outside the `try` block) is
not converted to a value — the run aborts instead of reaching `Completed`,
so "every persistence failure is converted to a value" is false. -/
theorem orchestrator_db_connect_escape :
    joint_conversation ⟨"X", [⟨"A", "neutral", ""⟩], 1, "Deutsch", some "u"⟩
      (fun _ => "a") ⟨false, true⟩ [] =
      Except.error "sqlite3.OperationalError" := rfl

/-- C6: every completed run of `N` iterations appends exactly `N` primary
turn records (each contributing its prompt entry and exactly one
turn-answer entry), followed by exactly one summary entry and one
final-statement entry, in that order, and nothing else. -/
theorem transcript_shape (cfg : RunCfg) (gen : Nat → String) (env : DbEnv)
    (h0 : List ChatMsg) (hR : 1 ≤ cfg.roster.length) (_hN : 1 ≤ cfg.iterations)
    (hdb : cfg.user = none ∨ env.connectOk = true) :
    ∃ out, joint_conversation cfg gen env h0 = Except.ok out ∧
      out.turns.length = cfg.iterations ∧
      out.history = h0 ++ (out.turns.flatMap (msgsOfTurn cfg.topic)) ++
        [ChatMsg.summaryMsg out.summaryText, ChatMsg.finalMsg out.finalText] ∧
      (out.turns.flatMap (msgsOfTurn cfg.topic)).countP ChatMsg.isTurnAnswer =
        cfg.iterations ∧
      (out.turns.flatMap (msgsOfTurn cfg.topic)).all ChatMsg.isTurnEntry = true := by
  have hne : cfg.roster.isEmpty = false := by
    cases hcs : cfg.roster with
    | nil => rw [hcs] at hR; simp at hR
    | cons a t => rfl
  refine ⟨runOutputOf cfg gen h0, joint_conversation_ok cfg gen env h0 hne hdb,
    ?_, ?_, ?_, ?_⟩
  · simp [runOutputOf, runTurns_turns_length]
  · show ((runTurns cfg gen h0 cfg.iterations).history ++ _) ++ _ = _
    rw [runTurns_history_eq]
    simp [runOutputOf]
  · rw [show (runOutputOf cfg gen h0).turns =
      (runTurns cfg gen h0 cfg.iterations).turns from rfl,
      countP_turnAnswer_flatMap, runTurns_turns_length]
  · exact all_turnEntry_flatMap cfg.topic _

theorem transcript_shape_witness :
    (1 ≤ wCfg23.roster.length ∧ 1 ≤ wCfg23.iterations ∧
      (wCfg23.user = none ∨ (⟨true, true⟩ : DbEnv).connectOk = true)) ∧
    ∃ out, joint_conversation wCfg23 wGen ⟨true, true⟩ [] = Except.ok out ∧
      out.turns.length = wCfg23.iterations ∧
      out.history = [] ++ (out.turns.flatMap (msgsOfTurn wCfg23.topic)) ++
        [ChatMsg.summaryMsg out.summaryText, ChatMsg.finalMsg out.finalText] ∧
      (out.turns.flatMap (msgsOfTurn wCfg23.topic)).countP ChatMsg.isTurnAnswer =
        wCfg23.iterations ∧
      (out.turns.flatMap (msgsOfTurn wCfg23.topic)).all ChatMsg.isTurnEntry = true :=
  ⟨⟨by decide, by decide, Or.inl rfl⟩,
    transcript_shape wCfg23 wGen ⟨true, true⟩ [] (by decide) (by decide) (Or.inl rfl)⟩

/-- C7 (counterexample): with roster `[A, B]` and `N = 3` distinct-output
iterations, the agent who speaks last is `A` with output `"out2"`, but the
final-statement entry contains `"out1"` (the last roster agent `B`'s most
recent output, `agent_outputs[-1]`), so the claim is false. -/
theorem final_statement_not_last_speaker :
    (joint_conversation wCfg23 wGen ⟨true, true⟩ []).toOption.map
      (fun o => (o.finalText, o.history.getLast?,
        o.turns.map (fun t => (t.agentName, t.output)))) =
      some ("out1", some (ChatMsg.finalMsg "out1"),
        [("A", "out0"), ("B", "out1"), ("A", "out2")]) ∧
    ("out1" : String) ≠ "out2" :=
  ⟨rfl, by decide⟩

/-- C7 (amended): the final-statement entry of a completed run contains
the value of the last roster slot of the agent-output window at run end —
the last roster agent's most recent stored output (or the topic-shift
sentinel) — which coincides with the last speaker's output when the
iteration count is a multiple of the roster size and the last turn did not
fire the stagnation injection. -/
theorem final_statement_last_slot (cfg : RunCfg) (gen : Nat → String)
    (env : DbEnv) (h0 : List ChatMsg) (hR : 1 ≤ cfg.roster.length)
    (hN : 1 ≤ cfg.iterations) (hdb : cfg.user = none ∨ env.connectOk = true) :
    ∃ out, joint_conversation cfg gen env h0 = Except.ok out ∧
      out.history.getLast? = some (ChatMsg.finalMsg out.finalText) ∧
      out.finalText = ((runTurns cfg gen h0 cfg.iterations).outputs).getLastD "" ∧
      ((cfg.iterations % cfg.roster.length = 0 ∧
          (((runTurns cfg gen h0 cfg.iterations).turns).getD
            (cfg.iterations - 1) default).stagnationFired = false) →
        out.finalText =
          (((runTurns cfg gen h0 cfg.iterations).turns).getD
            (cfg.iterations - 1) default).output) := by
  have hne : cfg.roster.isEmpty = false := by
    cases hcs : cfg.roster with
    | nil => rw [hcs] at hR; simp at hR
    | cons a t => rfl
  refine ⟨runOutputOf cfg gen h0, joint_conversation_ok cfg gen env h0 hne hdb,
    ?_, rfl, ?_⟩
  · simp [runOutputOf]
  · rintro ⟨hmod, hnf⟩
    rw [runTurns_turns_getD cfg gen h0 cfg.iterations (cfg.iterations - 1)
      (by omega)] at hnf ⊢
    show ((runTurns cfg gen h0 cfg.iterations).outputs).getLastD "" = _
    obtain ⟨j, hj⟩ : ∃ j, cfg.iterations = j + 1 := ⟨cfg.iterations - 1, by omega⟩
    have hj1 : cfg.iterations - 1 = j := by omega
    rw [hj1] at hnf ⊢
    rw [hj, runTurns_succ, stepState_outputs, if_neg (by simp [turnAt] at hnf ⊢; exact hnf)]
    unfold turnAt
    rw [mkTurn_agentIdx]
    have hidx : j % cfg.roster.length = cfg.roster.length - 1 := by
      have := last_index_mod cfg.iterations cfg.roster.length hN hR hmod
      rw [hj1] at this
      exact this
    rw [hidx]
    have hlen : (runTurns cfg gen h0 j).outputs.length = cfg.roster.length :=
      runTurns_outputs_length cfg gen h0 j
    rw [show cfg.roster.length - 1 = (runTurns cfg gen h0 j).outputs.length - 1 from by omega]
    exact getLastD_set_last _ "" _ (by
      intro hnil
      rw [hnil] at hlen
      simp at hlen
      omega)

theorem final_statement_last_slot_witness :
    (1 ≤ wCfg24.roster.length ∧ 1 ≤ wCfg24.iterations ∧
      (wCfg24.user = none ∨ (⟨true, true⟩ : DbEnv).connectOk = true)) ∧
    ∃ out, joint_conversation wCfg24 wGen ⟨true, true⟩ [] = Except.ok out ∧
      out.history.getLast? = some (ChatMsg.finalMsg out.finalText) ∧
      out.finalText = ((runTurns wCfg24 wGen [] wCfg24.iterations).outputs).getLastD "" ∧
      ((wCfg24.iterations % wCfg24.roster.length = 0 ∧
          (((runTurns wCfg24 wGen [] wCfg24.iterations).turns).getD
            (wCfg24.iterations - 1) default).stagnationFired = false) →
        out.finalText =
          (((runTurns wCfg24 wGen [] wCfg24.iterations).turns).getD
            (wCfg24.iterations - 1) default).output) :=
  ⟨⟨by decide, by decide, Or.inl rfl⟩,
    final_statement_last_slot wCfg24 wGen ⟨true, true⟩ [] (by decide) (by decide)
      (Or.inl rfl)⟩

/-- C8: with an empty agent selection, the UI entry point returns the
validation message synchronously; the result does not depend on the
generation environment or the database environment (no remote call is
consulted, nothing is persisted), and no run output exists. -/
theorem empty_roster_validation (topic language : String) (N : Nat)
    (user : Option String) (gen genB : Nat → String) (env envB : DbEnv)
    (h0 : List ChatMsg) :
    process_input_custom_agents ⟨topic, [], N, language, user⟩ gen env h0 =
      ProcessOutcome.validationError "Keine Agenten ausgewählt!" ∧
    process_input_custom_agents ⟨topic, [], N, language, user⟩ gen env h0 =
      process_input_custom_agents ⟨topic, [], N, language, user⟩ genB envB h0 :=
  ⟨rfl, rfl⟩

/-- One vote call never decreases either counter of any key. -/
theorem ledgerCounts_rate_mono (led : RatingLedger) (did : String) (itn : Nat)
    (agent kind : String) (d : String) (i : Nat) (a : String) :
    (ledgerCounts led d i a).1 ≤
      (ledgerCounts (rate_agent_response led did itn agent kind).1 d i a).1 ∧
    (ledgerCounts led d i a).2 ≤
      (ledgerCounts (rate_agent_response led did itn agent kind).1 d i a).2 := by
  unfold ledgerCounts rate_agent_response
  by_cases hk : d = did ∧ i = itn ∧ a = agent
  · obtain ⟨h1, h2, h3⟩ := hk
    subst h1; subst h2; subst h3
    simp only [if_pos (⟨rfl, rfl, rfl⟩ : d = d ∧ i = i ∧ a = a), Option.getD]
    split_ifs <;> constructor <;> simp
  · simp [if_neg hk]

/-- Any sequence of vote calls never decreases either counter of any key. -/
theorem ledgerCounts_rateMany_mono
    (votes : List (String × Nat × String × String)) : ∀ (led : RatingLedger)
    (d : String) (i : Nat) (a : String),
    (ledgerCounts led d i a).1 ≤ (ledgerCounts (rateMany led votes) d i a).1 ∧
    (ledgerCounts led d i a).2 ≤ (ledgerCounts (rateMany led votes) d i a).2 := by
  induction votes with
  | nil => intro led d i a; exact ⟨le_refl _, le_refl _⟩
  | cons v vs ih =>
    intro led d i a
    have h1 := ledgerCounts_rate_mono led v.1 v.2.1 v.2.2.1 v.2.2.2 d i a
    have h2 := ih (rate_agent_response led v.1 v.2.1 v.2.2.1 v.2.2.2).1 d i a
    exact ⟨h1.1.trans h2.1, h1.2.trans h2.2⟩

/-- C9: a vote call lazily creates the entry for its key, increments
exactly the matching counter by one (`upvotes` for an upvote, `downvotes`
for a downvote), leaves every other key unchanged, and hands the full
updated ledger to the persistence write; across any sequence of vote calls
the counters of a fixed key are monotonically non-decreasing. -/
theorem rating_ledger_laws (led : RatingLedger) (did : String) (itn : Nat)
    (agent kind : String) :
    (rate_agent_response led did itn agent kind).2 =
      (rate_agent_response led did itn agent kind).1 ∧
    (kind = "upvote" →
      ledgerCounts (rate_agent_response led did itn agent kind).1 did itn agent =
        ((ledgerCounts led did itn agent).1 + 1, (ledgerCounts led did itn agent).2)) ∧
    (kind = "downvote" →
      ledgerCounts (rate_agent_response led did itn agent kind).1 did itn agent =
        ((ledgerCounts led did itn agent).1, (ledgerCounts led did itn agent).2 + 1)) ∧
    (∀ (d : String) (i : Nat) (a : String), ¬(d = did ∧ i = itn ∧ a = agent) →
      (rate_agent_response led did itn agent kind).1 d i a = led d i a) ∧
    (rate_agent_response led did itn agent kind).1 did itn agent ≠ none ∧
    ∀ (votes : List (String × Nat × String × String)) (d : String) (i : Nat)
      (a : String),
      (ledgerCounts led d i a).1 ≤ (ledgerCounts (rateMany led votes) d i a).1 ∧
      (ledgerCounts led d i a).2 ≤ (ledgerCounts (rateMany led votes) d i a).2 := by
  refine ⟨rfl, ?_, ?_, ?_, ?_, fun votes => ledgerCounts_rateMany_mono votes led⟩
  · intro hk
    subst hk
    simp [rate_agent_response, ledgerCounts]
  · intro hk
    subst hk
    simp [rate_agent_response, ledgerCounts]
  · intro d i a hk
    simp [rate_agent_response, if_neg hk]
  · simp [rate_agent_response]

theorem rating_ledger_laws_witness :
    ledgerCounts (rate_agent_response (fun _ _ _ => none) "d" 1 "A" "upvote").1
        "d" 1 "A" =
      ((ledgerCounts (fun _ _ _ => none) "d" 1 "A").1 + 1,
        (ledgerCounts (fun _ _ _ => none) "d" 1 "A").2) :=
  (rating_ledger_laws (fun _ _ _ => none) "d" 1 "A" "upvote").2.1 rfl

/-- C3 (counterexample): the retry issued for a poor turn can itself come
back as one of the client's terminal error strings — here the rate-limit
exhaustion message, which does not contain the filter marker
"Fehler bei Gemini API Aufruf" — and that error text is then adopted as the
turn's output in place of the original poor output, so "if the retry
errors, the original poor output is retained, never the error text" is
false. -/
theorem poor_retry_error_adopted :
    (call_gemini_api (fun _ => ApiOutcome.apiError 429 "r")).response =
      rateLimitMsg ∧
    ((joint_conversation ⟨"X", [⟨"A", "neutral", ""⟩], 1, "Deutsch", none⟩
        (fun k => if k = 0 then "ich wiederhole mich" else rateLimitMsg)
        ⟨true, true⟩ []).toOption.map
      (fun o => o.turns.map (fun t => (t.wasRetried, t.rawOutput, t.output)))) =
      some [(true, "ich wiederhole mich", rateLimitMsg)] ∧
    rateLimitMsg ≠ "ich wiederhole mich" :=
  ⟨rfl, rfl, by decide⟩

/-- C3 (amended): a turn is re-generated exactly when its reply is
classified poor, in which case exactly one extra generation call is made;
the retry's output is adopted iff it does not contain the substring
"Fehler bei Gemini API Aufruf" (so only error strings carrying that marker
are discarded in favour of the original poor output — terminal error
strings without the marker are adopted). -/
theorem poor_quality_retry_policy (cfg : RunCfg) (gen : Nat → String)
    (s : ConvoState) (i : Nat) :
    (mkTurn cfg gen s i).wasRetried =
      decide (evaluate_response (mkTurn cfg gen s i).rawOutput = "schlechte antwort") ∧
    (stepState cfg gen s i).callIdx =
      s.callIdx + (if (mkTurn cfg gen s i).wasRetried then 2 else 1) ∧
    ((mkTurn cfg gen s i).wasRetried = false →
      (mkTurn cfg gen s i).output = (mkTurn cfg gen s i).rawOutput) ∧
    ((mkTurn cfg gen s i).wasRetried = true →
      strContains (gen (s.callIdx + 1)) retryErrMarker = true →
      (mkTurn cfg gen s i).output = (mkTurn cfg gen s i).rawOutput) ∧
    ((mkTurn cfg gen s i).wasRetried = true →
      strContains (gen (s.callIdx + 1)) retryErrMarker = false →
      (mkTurn cfg gen s i).output = gen (s.callIdx + 1)) := by
  refine ⟨rfl, rfl, ?_, ?_, ?_⟩
  · intro h
    rw [mkTurn_output_def, h, mkTurn_rawOutput]
    simp
  · intro h hm
    rw [mkTurn_output_def, h, hm, mkTurn_rawOutput]
    simp
  · intro h hm
    rw [mkTurn_output_def, h, hm]
    simp

theorem poor_quality_retry_policy_witness :
    ((mkTurn wCfg15 (fun k => if k = 0 then "ich wiederhole mich" else genericErrMsg "x")
        (initState wCfg15 []) 0).wasRetried = true ∧
      strContains ((fun k => if k = 0 then "ich wiederhole mich" else genericErrMsg "x")
        ((initState wCfg15 []).callIdx + 1)) retryErrMarker = true) ∧
    (mkTurn wCfg15 (fun k => if k = 0 then "ich wiederhole mich" else genericErrMsg "x")
        (initState wCfg15 []) 0).output =
      (mkTurn wCfg15 (fun k => if k = 0 then "ich wiederhole mich" else genericErrMsg "x")
        (initState wCfg15 []) 0).rawOutput :=
  ⟨⟨rfl, rfl⟩,
    (poor_quality_retry_policy wCfg15
        (fun k => if k = 0 then "ich wiederhole mich" else genericErrMsg "x")
        (initState wCfg15 []) 0).2.2.2.1 rfl rfl⟩

end CipherCore
